import Mathlib

/-!
# Verification of the SQL auth service core

A shallow embedding of `bareasgi_auth_server_sqlite/sql_auth_service.py`:
the three-table relational state (`users`, `roles`, `members`), the salted
password hashing, and the query/mutation operations of `SqlAuthService`.

The backing store is modelled relationally: each table is a list of rows,
autoincrement surrogate keys are explicit counters, and the unique
constraints of the schema (`users.name`, `roles.name`,
`(members.user_id, members.role_id)`) drive the `IntegrityError` paths.
External effects are parameters: the SHA-512 hex digest of the UTF-8
encoding is an arbitrary function `H : String → String`, and each fresh
`uuid.uuid4().hex` salt is passed in explicitly.

Python exceptions are modelled with `Except PyError`; a mutating operation
returns its result together with the post-transaction database (the
`engine.begin()` context rolls the transaction back when an exception
escapes, so an erroring operation returns the database unchanged).

Statement-construction errors are modelled faithfully: attribute access on
a table's column collection (`table.c.<name>`) succeeds only for a column
the table defines, and attribute access on a `Insert` construct succeeds
only for a method the construct defines; otherwise Python raises
`AttributeError` before anything executes.
-/

namespace SqlAuth

/-- A row of the `users` table (`_define_users_table`): surrogate key,
unique name, salt, hashed password, enabled flag. -/
structure UserRow where
  user_id : Nat
  name : String
  salt : String
  hashed_password : String
  is_enabled : Bool
deriving Repr, DecidableEq

/-- A row of the `roles` table (`_define_roles_table`): surrogate key,
unique name, optional description. -/
structure RoleRow where
  role_id : Nat
  name : String
  description : Option String
deriving Repr, DecidableEq

/-- A row of the `members` table (`_define_members_table`): surrogate key
and the two foreign keys, with `(user_id, role_id)` unique. -/
structure MemberRow where
  member_id : Nat
  user_id : Nat
  role_id : Nat
deriving Repr, DecidableEq

/-- The relational state: the three tables plus the autoincrement
counters for the surrogate keys. -/
structure DB where
  users : List UserRow
  roles : List RoleRow
  members : List MemberRow
  nextUserId : Nat
  nextRoleId : Nat
  nextMemberId : Nat
deriving Repr, DecidableEq

/-- The empty database, as `open()` finds it on a fresh deployment after
creating the three tables. -/
def DB.empty : DB := ⟨[], [], [], 1, 1, 1⟩

/-- The Python exceptions the service can raise: the `assert ... is not
None` guard, a storage `IntegrityError` on a constraint violation, and
`AttributeError` from looking up a missing attribute. -/
inductive PyError where
  | assertionError
  | integrityError
  | attributeError (attr : String)
deriving Repr, DecidableEq

/-- The columns `_define_members_table` gives the `members` table.
`self._members.c.<attr>` resolves only against these. -/
def membersTableColumns : List String := ["member_id", "user_id", "role_id"]

/-- The generative methods sqlalchemy's `Insert` construct defines for
building an INSERT ... SELECT; there is `from_select` but no
`select_from` (that is a method of `Select`), so
`self._members.insert().select_from(...)` raises `AttributeError`. -/
def insertConstructMethods : List String :=
  ["values", "inline", "from_select", "returning"]

/-- Python attribute lookup: `AttributeError` unless the attribute is
among those the object defines. -/
def getattr (defined : List String) (attr : String) : Except PyError String :=
  if defined.contains attr then .ok attr else .error (.attributeError attr)

/-! ## Password hashing (`_hash_password`, `_is_valid_password`) -/

/-- `_hash_password`: given the fresh `uuid4().hex` value `salt`, returns
the salt and `sha512((password + salt).encode()).hexdigest()`, the digest
being `H` applied to the concatenation. -/
def hashPassword (H : String → String) (salt password : String) :
    String × String :=
  (salt, H (password ++ salt))

/-- `_is_valid_password`: recompute the digest of `password + salt` and
compare with the stored one. -/
def isValidPassword (H : String → String)
    (password salt hashed_password : String) : Bool :=
  hashed_password == H (password ++ salt)

/-! ## Credential store -/

/-- `user_exists`: `SELECT user_id FROM users WHERE name = :name`,
true iff `fetchone` finds a row. `init` models whether `self._users` has
been set by `open()`; the `assert` raises otherwise. -/
def user_exists (init : Bool) (name : String) (db : DB) :
    Except PyError Bool :=
  if !init then .error .assertionError
  else .ok (db.users.any (fun u => u.name == name))

/-- `user_is_enabled`: select `is_enabled` of the first row with the
name; `row is not None and row[is_enabled]`. -/
def user_is_enabled (init : Bool) (name : String) (db : DB) :
    Except PyError Bool :=
  if !init then .error .assertionError
  else
    match db.users.find? (fun u => u.name == name) with
    | none => .ok false
    | some u => .ok u.is_enabled

/-- `check_password`: select `salt, hashed_password` of the first row
with the name; `row is not None and _is_valid_password(password, salt,
hashed_password)`. -/
def check_password (H : String → String) (init : Bool)
    (name password : String) (db : DB) : Except PyError Bool :=
  if !init then .error .assertionError
  else
    match db.users.find? (fun u => u.name == name) with
    | none => .ok false
    | some u => .ok (isValidPassword H password u.salt u.hashed_password)

/-- `add_user`: hash the password with a fresh salt, insert the row.
The `INSERT` violates the unique constraint on `name` exactly when a row
with that name exists; the `except IntegrityError` turns that into
`False` with the transaction rolled back. -/
def add_user (H : String → String) (init : Bool) (salt : String)
    (name password : String) (is_enabled : Bool) (db : DB) :
    Except PyError Bool × DB :=
  if !init then (.error .assertionError, db)
  else
    let (s, hp) := hashPassword H salt password
    if db.users.any (fun u => u.name == name) then (.ok false, db)
    else
      (.ok true,
        { db with
            users := db.users ++ [⟨db.nextUserId, name, s, hp, is_enabled⟩],
            nextUserId := db.nextUserId + 1 })

/-- `change_password`: re-hash with a fresh salt, `UPDATE ... WHERE name
= :name`; true iff `rowcount == 1`. -/
def change_password (H : String → String) (init : Bool) (salt : String)
    (name password : String) (db : DB) : Except PyError Bool × DB :=
  if !init then (.error .assertionError, db)
  else
    let (s, hp) := hashPassword H salt password
    let rowcount := (db.users.filter (fun u => u.name == name)).length
    (.ok (rowcount == 1),
      { db with
          users := db.users.map (fun u =>
            if u.name == name then
              { u with salt := s, hashed_password := hp }
            else u) })

/-- `delete_user`: `DELETE FROM users WHERE name = :name`; true iff
`rowcount == 1`. Only the `users` table is touched: the schema's foreign
keys carry no cascade policy and sqlite does not act on them, so
membership rows referencing the user remain. -/
def delete_user (init : Bool) (name : String) (db : DB) :
    Except PyError Bool × DB :=
  if !init then (.error .assertionError, db)
  else
    let rowcount := (db.users.filter (fun u => u.name == name)).length
    (.ok (rowcount == 1),
      { db with users := db.users.filter (fun u => !(u.name == name)) })

/-! ## Role store -/

/-- `add_role`: insert, with the unique-name `IntegrityError` caught and
returned as `False`. -/
def add_role (init : Bool) (name : String) (description : Option String)
    (db : DB) : Except PyError Bool × DB :=
  if !init then (.error .assertionError, db)
  else if db.roles.any (fun r => r.name == name) then (.ok false, db)
  else
    (.ok true,
      { db with
          roles := db.roles ++ [⟨db.nextRoleId, name, description⟩],
          nextRoleId := db.nextRoleId + 1 })

/-- `delete_role`: `DELETE FROM roles WHERE name = :name`; true iff
`rowcount == 1`. -/
def delete_role (init : Bool) (name : String) (db : DB) :
    Except PyError Bool × DB :=
  if !init then (.error .assertionError, db)
  else
    let rowcount := (db.roles.filter (fun r => r.name == name)).length
    (.ok (rowcount == 1),
      { db with roles := db.roles.filter (fun r => !(r.name == name)) })

/-- `role_exists`: true iff a `roles` row with the name exists. -/
def role_exists (init : Bool) (name : String) (db : DB) :
    Except PyError Bool :=
  if !init then .error .assertionError
  else .ok (db.roles.any (fun r => r.name == name))

/-! ## Membership engine -/

/-- `has_role`: the three-way join keyed on both names; true iff some
membership row links a user named `user` to a role named `role`. -/
def has_role (init : Bool) (user role : String) (db : DB) :
    Except PyError Bool :=
  if !init then .error .assertionError
  else
    .ok (db.members.any (fun m =>
      db.users.any (fun u => u.name == user && u.user_id == m.user_id) &&
      db.roles.any (fun r => r.name == role && r.role_id == m.role_id)))

/-- The rows produced by `grant`'s source query: `SELECT users.user_id,
roles.role_id FROM users, roles WHERE users.name = :user AND roles.name
= :role` (a cross join filtered on both names). -/
def grantSelect (user role : String) (db : DB) : List (Nat × Nat) :=
  (db.users.filter (fun u => u.name == user)).flatMap (fun u =>
    (db.roles.filter (fun r => r.name == role)).map (fun r =>
      (u.user_id, r.role_id)))

/-- No two of the listed pairs are equal. -/
def pairwiseDistinct : List (Nat × Nat) → Bool
  | [] => true
  | p :: ps => !(ps.contains p) && pairwiseDistinct ps

/-- `grant`: `INSERT INTO members (user_id, role_id) SELECT ...` via
`from_select`. If an inserted pair violates the unique
`(user_id, role_id)` constraint — already present, or duplicated within
the batch — the storage raises `IntegrityError`; `grant` has no
try/except, so the error propagates and `engine.begin()` rolls the
transaction back. Otherwise returns `rowcount == 1`. -/
def grant (init : Bool) (user role : String) (db : DB) :
    Except PyError Bool × DB :=
  if !init then (.error .assertionError, db)
  else
    let selected := grantSelect user role db
    if selected.any (fun p =>
          db.members.any (fun m => m.user_id == p.1 && m.role_id == p.2))
        || !(pairwiseDistinct selected) then
      (.error .integrityError, db)
    else
      (.ok (selected.length == 1),
        { db with
            members := db.members ++ selected.enum.map (fun ip =>
              ⟨db.nextMemberId + ip.1, ip.2.1, ip.2.2⟩),
            nextMemberId := db.nextMemberId + selected.length })

/-- `revoke`: the delete statement's EXISTS subquery selects
`self._members.c.id` — but `_define_members_table` defines no column
named `id`, so the attribute lookup on the column collection raises
`AttributeError` before any SQL executes, on every call. -/
def revoke (init : Bool) (user role : String) (db : DB) :
    Except PyError Bool × DB :=
  if !init then (.error .assertionError, db)
  else
    match getattr membersTableColumns "id" with
    | .error e => (.error e, db)
    | .ok _ =>
      -- never reached: the members table has no id column. Were the
      -- column to resolve, the EXISTS subquery draws a fresh members
      -- reference (explicit select_from) and joins roles on
      -- roles.role_id = members.member_id, so it does not depend on the
      -- outer row: the delete removes every membership row or none.
      let cond := db.members.any (fun m =>
        db.users.any (fun u => u.user_id == m.user_id && u.name == user) &&
        db.roles.any (fun r => r.role_id == m.member_id && r.name == role))
      if cond then
        (.ok (db.members.length == 1), { db with members := [] })
      else (.ok false, db)

/-- `role_users`: names of users joined through memberships to the role
named `role`; the Python set comprehension deduplicates. -/
def role_users (init : Bool) (role : String) (db : DB) :
    Except PyError (List String) :=
  if !init then .error .assertionError
  else
    .ok ((db.members.flatMap (fun m =>
      (db.roles.filter (fun r =>
          r.role_id == m.role_id && r.name == role)).flatMap (fun _ =>
        (db.users.filter (fun u => u.user_id == m.user_id)).map
          (fun u => u.name)))).dedup)

/-- `user_roles`: names of roles joined through memberships to the user
named `user`; the Python set comprehension deduplicates. -/
def user_roles (init : Bool) (user : String) (db : DB) :
    Except PyError (List String) :=
  if !init then .error .assertionError
  else
    .ok ((db.members.flatMap (fun m =>
      (db.roles.filter (fun r => r.role_id == m.role_id)).flatMap (fun r =>
        (db.users.filter (fun u =>
            u.user_id == m.user_id && u.name == user)).map
          (fun _ => r.name)))).dedup)

/-- `update_user_roles`: inside one transaction, a delete whose EXISTS
subquery joins `users.user_id` to `members.member_id` executes first;
then the code builds `self._members.insert().select_from(...)` — but the
`Insert` construct has no `select_from` attribute, so `AttributeError`
is raised, escapes the `engine.begin()` block, and the transaction
(including the delete) rolls back. Every call fails with the database
unchanged. -/
def update_user_roles (init : Bool) (user : String) (roles : List String)
    (db : DB) : Except PyError Bool × DB :=
  if !init then (.error .assertionError, db)
  else
    -- the transient effect of the delete, discarded by the rollback
    let existsCond := db.members.any (fun m =>
      db.users.any (fun u => u.user_id == m.member_id && u.name == user))
    let afterDelete := if existsCond then { db with members := [] } else db
    match getattr insertConstructMethods "select_from" with
    | .error e => (.error e, db)
    | .ok _ =>
      -- never reached: Insert defines from_select, not select_from
      (.ok (!roles.isEmpty), afterDelete)

/-- One `(user_name, role_name)` row per membership, from the three-way
join streamed by `permissions`. -/
def permRows (db : DB) : List (String × String) :=
  db.members.flatMap (fun m =>
    (db.roles.filter (fun r => r.role_id == m.role_id)).flatMap (fun r =>
      (db.users.filter (fun u => u.user_id == m.user_id)).map (fun u =>
        (u.name, r.name))))

/-- One step of the accumulation loop in `permissions`:
`dct[key] = {value}` when the key is new, else `dct[key].add(value)`
(sets deduplicate). -/
def addPair (acc : List (String × List String)) (p : String × String) :
    List (String × List String) :=
  if acc.any (fun kv => kv.1 == p.1) then
    acc.map (fun kv =>
      if kv.1 == p.1 then
        (kv.1, if kv.2.contains p.2 then kv.2 else kv.2 ++ [p.2])
      else kv)
  else acc ++ [(p.1, [p.2])]

/-- The values stored under a key of the accumulated mapping (empty when
the key is absent). -/
def lookupKey (acc : List (String × List String)) (k : String) :
    List String :=
  match acc.find? (fun kv => kv.1 == k) with
  | some kv => kv.2
  | none => []

/-- The mapping `permissions` accumulates: with `roles_by_users = true`
the key is the user name and the value the role name, otherwise the key
is the role name and the value the user name. -/
def permissionsMap (roles_by_users : Bool) (db : DB) :
    List (String × List String) :=
  if roles_by_users then (permRows db).foldl addPair []
  else ((permRows db).map (fun p => (p.2, p.1))).foldl addPair []

/-- `permissions`: stream the full three-way join and group it into a
mapping, keyed by user name when `roles_by_users` is true and by role
name otherwise. -/
def permissions (init : Bool) (roles_by_users : Bool) (db : DB) :
    Except PyError (List (String × List String)) :=
  if !init then .error .assertionError
  else .ok (permissionsMap roles_by_users db)

/-! ## Auth façade -/

/-- `authenticate`: `try: if check_password: return username except:
pass; return None` — every exception from the check, the pre-open
assertion included, is swallowed into `None`. -/
def authenticate (H : String → String) (init : Bool)
    (username password : String) (db : DB) : Except PyError (Option String) :=
  match check_password H init username password db with
  | .ok true => .ok (some username)
  | .ok false => .ok none
  | .error _ => .ok none

/-- `is_valid_user`: delegates to `user_is_enabled`. -/
def is_valid_user (init : Bool) (user : String) (db : DB) :
    Except PyError Bool :=
  user_is_enabled init user db

/-- `authorizations`: delegates to `user_roles`. -/
def authorizations (init : Bool) (user : String) (db : DB) :
    Except PyError (List String) :=
  user_roles init user db

/-! ## Bootstrap (`open`) -/

/-- `open()`: reflect or create the three tables (a no-op on the
relational state), set the table handles (subsequent operations run with
`init = true`), then — as literally written —
`if await self.user_exists(admin): await self.add_user(admin, admin, True)`:
the admin account is inserted only when a user named admin already
exists, in which case the insert hits the unique-name constraint and
`add_user` returns `False` leaving the row untouched. -/
def openService (H : String → String) (salt : String) (db : DB) : DB :=
  match user_exists true "admin" db with
  | .error _ => db
  | .ok b => if b then (add_user H true salt "admin" "admin" true db).2 else db

/-! ## Concrete fixtures -/

/-- A concrete stand-in for the SHA-512 hex digest, used to instantiate
the hash parameter at witnesses and counterexamples. -/
def idH : String → String := fun s => s

/-- One disabled user `alice` whose stored digest matches password
`secret` under `idH` (salt `s`, digest `idH ("secret" ++ "s")`). -/
def DB1 : DB := ⟨[⟨1, "alice", "s", "secrets", false⟩], [], [], 2, 1, 1⟩

/-- Enabled user `alice`, role `admin`, and the membership linking
them. -/
def DB2 : DB :=
  ⟨[⟨1, "alice", "s", "secrets", true⟩], [⟨1, "admin", none⟩],
    [⟨1, 1, 1⟩], 2, 2, 2⟩

/-- Enabled user `alice` and role `admin` with no membership. -/
def DB3 : DB :=
  ⟨[⟨1, "alice", "s", "secrets", true⟩], [⟨1, "admin", none⟩], [], 2, 2, 1⟩

/-! ## Theorems -/

/-- Flat-mapping the constant empty list yields the empty list. -/
theorem flatMap_const_nil {α β : Type} (l : List α) :
    (l.flatMap fun _ => ([] : List β)) = [] := by
  induction l <;> simp_all

/-- `find?` commutes with a map that preserves the predicate. -/
theorem find?_map_of_pred_eq {α : Type} (f : α → α) (p : α → Bool)
    (hf : ∀ a, p (f a) = p a) (l : List α) :
    (l.map f).find? p = (l.find? p).map f := by
  rw [List.find?_map]
  have hp : (p ∘ f) = p := funext hf
  rw [hp]

/-- C1, counterexample: in `DB1` the only user is disabled, the supplied
password is correct (`check_password` succeeds on the stored salt and
digest), yet `authenticate` returns the username rather than none. -/
theorem C1_counterexample :
    DB1.users.all (fun u => u.is_enabled == false) = true ∧
    check_password idH true "alice" "secret" DB1 = .ok true ∧
    authenticate idH true "alice" "secret" DB1 = .ok (some "alice") :=
  ⟨rfl, rfl, rfl⟩

/-- C1, amended: `authenticate` returns the username whenever the stored
digest of the first row with that name verifies against the supplied
password, with no regard to the row's `is_enabled` flag — the disabled
gate lives only in `user_is_enabled` / `is_valid_user`. -/
theorem C1_authenticate_ignores_enabled (H : String → String)
    (name password : String) (db : DB) (u : UserRow)
    (hfind : db.users.find? (fun v => v.name == name) = some u)
    (hpw : isValidPassword H password u.salt u.hashed_password = true) :
    authenticate H true name password db = .ok (some name) := by
  simp [authenticate, check_password, hfind, hpw]

/-- C1, witness: the amended theorem applied to the disabled user of
`DB1` with the correct password. -/
theorem C1_witness :
    authenticate idH true "alice" "secret" DB1 = .ok (some "alice") :=
  C1_authenticate_ignores_enabled idH "alice" "secret" DB1
    ⟨1, "alice", "s", "secrets", false⟩ rfl rfl

/-- C2: `open()` never changes the relational state. The seed condition
is inverted — `add_user(admin, admin, True)` runs only when a user named
admin already exists, and then its insert fails on the unique-name
constraint — so on a fresh database no admin account is ever created,
and on any database the users table is left exactly as found. -/
theorem C2_open_never_seeds (H : String → String) (salt : String) (db : DB) :
    openService H salt db = db ∧
    user_exists true "admin" (openService H salt DB.empty) = .ok false := by
  constructor
  · unfold openService user_exists add_user
    cases h : db.users.any (fun u => u.name == "admin") <;> simp [h]
  · rfl

/-- C4: `revoke` raises on every call. Its delete statement selects
`self._members.c.id`, but the members table defines only `member_id`,
`user_id` and `role_id`, so building the statement raises
`AttributeError` and no row is ever deleted. -/
theorem C4_revoke_always_raises (user role : String) (db : DB) :
    revoke true user role db = (.error (.attributeError "id"), db) := rfl

/-- C5: `update_user_roles` raises on every call. After executing its
delete, it builds `self._members.insert().select_from(...)`; the
`Insert` construct has no `select_from` attribute, so `AttributeError`
is raised and the transaction — the delete included — rolls back,
leaving the database unchanged. -/
theorem C5_update_user_roles_always_raises (user : String)
    (roles : List String) (db : DB) :
    update_user_roles true user roles db =
      (.error (.attributeError "select_from"), db) := rfl

/-- C9, counterexample: invoked before `open()`, `authenticate` returns
the normal result none — its bare `except` swallows the `AssertionError`
from `check_password` — rather than surfacing a precondition error. -/
theorem C9_counterexample :
    authenticate idH false "alice" "secret" DB1 = .ok none := rfl

/-- C9, amended: before `open()` every operation except `authenticate`
fails fast with the `assert ... is not None` precondition error;
`authenticate` alone swallows that error and returns none. -/
theorem C9_pre_open_guards (H : String → String)
    (salt user role password : String) (enabled roles_by_users : Bool)
    (roles : List String) (db : DB) :
    user_exists false user db = .error .assertionError ∧
    user_is_enabled false user db = .error .assertionError ∧
    check_password H false user password db = .error .assertionError ∧
    add_user H false salt user password enabled db =
      (.error .assertionError, db) ∧
    change_password H false salt user password db =
      (.error .assertionError, db) ∧
    delete_user false user db = (.error .assertionError, db) ∧
    add_role false role none db = (.error .assertionError, db) ∧
    delete_role false role db = (.error .assertionError, db) ∧
    role_exists false role db = .error .assertionError ∧
    has_role false user role db = .error .assertionError ∧
    grant false user role db = (.error .assertionError, db) ∧
    revoke false user role db = (.error .assertionError, db) ∧
    role_users false role db = .error .assertionError ∧
    user_roles false user db = .error .assertionError ∧
    update_user_roles false user roles db = (.error .assertionError, db) ∧
    permissions false roles_by_users db = .error .assertionError ∧
    is_valid_user false user db = .error .assertionError ∧
    authorizations false user db = .error .assertionError ∧
    authenticate H false user password db = .ok none :=
  ⟨rfl, rfl, rfl, rfl, rfl, rfl, rfl, rfl, rfl, rfl, rfl, rfl, rfl, rfl,
    rfl, rfl, rfl, rfl, rfl⟩

/-- C3, counterexample: with the `alice`/`admin` pairing already present
(`DB2`), a further `grant` raises `IntegrityError` — the duplicate-pair
constraint violation is not caught — instead of returning false. -/
theorem C3_counterexample :
    grant true "alice" "admin" DB2 = (.error .integrityError, DB2) := rfl

/-- C3, amended: `grant` returns true iff exactly one membership row was
inserted, and returns false with no effect when either name does not
resolve; but when the pairing already exists the insert violates the
unique `(user_id, role_id)` constraint and the `IntegrityError`
propagates (it is not converted to false), the rollback leaving the
single existing membership row in place. -/
theorem C3_grant_cases (user role : String) (db : DB) :
    ((db.users.filter (fun u => u.name == user) = [] ∨
      db.roles.filter (fun r => r.name == role) = []) →
      grant true user role db = (.ok false, db)) ∧
    (∀ u0 : UserRow, ∀ r0 : RoleRow,
      db.users.filter (fun u => u.name == user) = [u0] →
      db.roles.filter (fun r => r.name == role) = [r0] →
      ((db.members.any (fun m =>
          m.user_id == u0.user_id && m.role_id == r0.role_id) = false →
        grant true user role db =
          (.ok true,
            { db with
                members :=
                  db.members ++ [⟨db.nextMemberId, u0.user_id, r0.role_id⟩],
                nextMemberId := db.nextMemberId + 1 })) ∧
       (db.members.any (fun m =>
          m.user_id == u0.user_id && m.role_id == r0.role_id) = true →
        grant true user role db = (.error .integrityError, db)))) := by
  refine ⟨?_, ?_⟩
  · rintro (h | h) <;>
    · have hsel : grantSelect user role db = [] := by
        simp [grantSelect, h, flatMap_const_nil]
      simp [grant, hsel, pairwiseDistinct]
  · intro u0 r0 hu hr
    refine ⟨?_, ?_⟩ <;> intro hmem <;>
      simp [grant, grantSelect, hu, hr, pairwiseDistinct, hmem, List.enum]

/-- C3, witness: on `DB3` (names resolve, no pairing) `grant` inserts
the one membership row, producing `DB2`; on `DB2` (pairing present) it
raises `IntegrityError` and leaves the state — with its single
membership row — unchanged. -/
theorem C3_witness :
    grant true "alice" "admin" DB3 = (.ok true, DB2) ∧
    grant true "alice" "admin" DB2 = (.error .integrityError, DB2) :=
  ⟨((C3_grant_cases "alice" "admin" DB3).2 ⟨1, "alice", "s", "secrets", true⟩
      ⟨1, "admin", none⟩ rfl rfl).1 rfl,
   ((C3_grant_cases "alice" "admin" DB2).2 ⟨1, "alice", "s", "secrets", true⟩
      ⟨1, "admin", none⟩ rfl rfl).2 rfl⟩

/-- Looking a key up in the accumulated mapping when `find?` misses. -/
theorem lookupKey_of_find?_none (acc : List (String × List String))
    (k : String) (h : acc.find? (fun kv => kv.1 == k) = none) :
    lookupKey acc k = [] := by
  unfold lookupKey
  rw [h]

/-- Looking a key up in the accumulated mapping when `find?` hits. -/
theorem lookupKey_of_find?_some (acc : List (String × List String))
    (k : String) (kv : String × List String)
    (h : acc.find? (fun kv => kv.1 == k) = some kv) :
    lookupKey acc k = kv.2 := by
  unfold lookupKey
  rw [h]

/-- One accumulation step adds exactly the binding `p.1 ↦ p.2` to the
mapping, leaving every other key's values unchanged. -/
theorem lookupKey_addPair (acc : List (String × List String))
    (p : String × String) (k v : String) :
    v ∈ lookupKey (addPair acc p) k ↔
      v ∈ lookupKey acc k ∨ (k = p.1 ∧ v = p.2) := by
  have hpresk : ∀ kv : String × List String,
      ((if kv.1 == p.1 then
          (kv.1, if kv.2.contains p.2 then kv.2 else kv.2 ++ [p.2])
        else kv).1 == k) = (kv.1 == k) := by
    intro kv
    by_cases h : kv.1 == p.1 <;> simp [h]
  unfold addPair
  cases hany : acc.any (fun kv => kv.1 == p.1) with
  | true =>
    rw [if_pos rfl]
    obtain ⟨kv1, hkv1, hkv1p⟩ := List.any_eq_true.mp hany
    cases hf : acc.find? (fun kv => kv.1 == k) with
    | none =>
      have hnk := List.find?_eq_none.mp hf
      have h1 : (acc.map (fun kv => if kv.1 == p.1 then
          (kv.1, if kv.2.contains p.2 then kv.2 else kv.2 ++ [p.2])
          else kv)).find? (fun kv => kv.1 == k) = none := by
        rw [find?_map_of_pred_eq _ _ hpresk, hf]
        rfl
      rw [lookupKey_of_find?_none _ _ h1, lookupKey_of_find?_none _ _ hf]
      simp only [List.not_mem_nil, false_or, false_iff]
      rintro ⟨hk, hv⟩
      subst hk
      exact hnk kv1 hkv1 hkv1p
    | some kv0 =>
      have hk0 := List.find?_some hf
      have hk0' : kv0.1 = k := by simpa using hk0
      have h1 : (acc.map (fun kv => if kv.1 == p.1 then
          (kv.1, if kv.2.contains p.2 then kv.2 else kv.2 ++ [p.2])
          else kv)).find? (fun kv => kv.1 == k) =
          some (if kv0.1 == p.1 then
            (kv0.1, if kv0.2.contains p.2 then kv0.2 else kv0.2 ++ [p.2])
            else kv0) := by
        rw [find?_map_of_pred_eq _ _ hpresk, hf]
        rfl
      rw [lookupKey_of_find?_some _ _ _ h1, lookupKey_of_find?_some _ _ _ hf]
      by_cases hkp : (kv0.1 == p.1) = true
      · have hkp' : kv0.1 = p.1 := by simpa using hkp
        rw [if_pos hkp]
        by_cases hc : (kv0.2.contains p.2) = true
        · have hc' : p.2 ∈ kv0.2 := by simpa using hc
          rw [if_pos hc]
          constructor
          · exact fun h => .inl h
          · rintro (h | ⟨hk, hv⟩)
            · exact h
            · exact hv ▸ hc'
        · rw [if_neg hc]
          show v ∈ kv0.2 ++ [p.2] ↔ _
          rw [List.mem_append, List.mem_singleton]
          constructor
          · rintro (h | h)
            · exact .inl h
            · exact .inr ⟨by rw [← hk0', hkp'], h⟩
          · rintro (h | ⟨hk, hv⟩)
            · exact .inl h
            · exact .inr hv
      · rw [if_neg hkp]
        constructor
        · exact fun h => .inl h
        · rintro (h | ⟨hk, hv⟩)
          · exact h
          · exact absurd (by simp [hk0', hk] : (kv0.1 == p.1) = true) hkp
  | false =>
    rw [if_neg Bool.false_ne_true]
    have hnp := List.any_eq_false.mp hany
    cases hf : acc.find? (fun kv => kv.1 == k) with
    | none =>
      have h1 : (acc ++ [(p.1, [p.2])]).find? (fun kv => kv.1 == k) =
          List.find? (fun kv => kv.1 == k) [(p.1, [p.2])] := by
        rw [List.find?_append, hf]
        rfl
      rw [lookupKey_of_find?_none _ _ hf]
      by_cases hpk : (p.1 == k) = true
      · have hpk' : p.1 = k := by simpa using hpk
        have h2 : (acc ++ [(p.1, [p.2])]).find? (fun kv => kv.1 == k) =
            some (p.1, [p.2]) := by
          rw [h1]
          simp [hpk]
        rw [lookupKey_of_find?_some _ _ _ h2]
        simp [List.mem_singleton, hpk'.symm]
      · have h2 : (acc ++ [(p.1, [p.2])]).find? (fun kv => kv.1 == k) =
            none := by
          rw [h1]
          simp [hpk]
        rw [lookupKey_of_find?_none _ _ h2]
        simp only [List.not_mem_nil, false_or, false_iff]
        rintro ⟨hk, hv⟩
        exact hpk (by simp [hk])
    | some kv0 =>
      have hk0 := List.find?_some hf
      have hk0' : kv0.1 = k := by simpa using hk0
      have hmem := List.mem_of_find?_eq_some hf
      have h2 : (acc ++ [(p.1, [p.2])]).find? (fun kv => kv.1 == k) =
          some kv0 := by
        rw [List.find?_append, hf]
        rfl
      rw [lookupKey_of_find?_some _ _ _ h2, lookupKey_of_find?_some _ _ _ hf]
      constructor
      · exact fun h => .inl h
      · rintro (h | ⟨hk, hv⟩)
        · exact h
        · exact absurd (by simp [hk0', hk] : (kv0.1 == p.1) = true)
            (hnp kv0 hmem)

/-- Folding the accumulation loop over a row stream: a value sits under
a key exactly when it did initially or the stream contains the pair. -/
theorem lookupKey_foldl (pairs : List (String × String)) :
    ∀ (acc : List (String × List String)) (k v : String),
      v ∈ lookupKey (pairs.foldl addPair acc) k ↔
        v ∈ lookupKey acc k ∨ (k, v) ∈ pairs := by
  induction pairs with
  | nil =>
    intro acc k v
    simp
  | cons p ps ih =>
    intro acc k v
    rw [List.foldl_cons, ih, lookupKey_addPair, List.mem_cons, Prod.ext_iff]
    tauto

/-- C6, counterexample: with the single membership alice→admin (`DB2`),
`permissions(roles_by_users=true)` returns the mapping keyed by the user
name — `{alice ↦ {admin}}` — and the false flag returns
`{admin ↦ {alice}}`: the opposite of the claimed grouping. -/
theorem C6_counterexample :
    permissions true true DB2 = .ok [("alice", ["admin"])] ∧
    permissions true false DB2 = .ok [("admin", ["alice"])] :=
  ⟨rfl, rfl⟩

/-- C6, amended: `permissions` groups the membership relation by user
name → set of held role names when `roles_by_users` is true, and by role
name → set of member user names when it is false (the reverse of the
claimed correspondence): a value sits under a key exactly when the
three-way join produces that (user, role) pair. -/
theorem C6_permissions_grouping (db : DB) (k v : String) :
    (v ∈ lookupKey (permissionsMap true db) k ↔ (k, v) ∈ permRows db) ∧
    (v ∈ lookupKey (permissionsMap false db) k ↔ (v, k) ∈ permRows db) ∧
    ((k, v) ∈ permRows db ↔
      ∃ m ∈ db.members, ∃ r ∈ db.roles, ∃ u ∈ db.users,
        r.role_id = m.role_id ∧ u.user_id = m.user_id ∧
        u.name = k ∧ r.name = v) := by
  refine ⟨?_, ?_, ?_⟩
  · unfold permissionsMap
    rw [if_pos rfl, lookupKey_foldl]
    simp [lookupKey]
  · unfold permissionsMap
    rw [if_neg Bool.false_ne_true, lookupKey_foldl]
    simp only [lookupKey, List.find?_nil, List.not_mem_nil, false_or]
    rw [List.mem_map]
    constructor
    · rintro ⟨a, ha, hav⟩
      have h1 : a.2 = k := congrArg Prod.fst hav
      have h2 : a.1 = v := congrArg Prod.snd hav
      have h3 : a = (v, k) := by
        cases a
        simp_all
      exact h3 ▸ ha
    · intro h
      exact ⟨(v, k), h, rfl⟩
  · simp [permRows, List.mem_flatMap, List.mem_filter, List.mem_map,
      Prod.ext_iff]
    tauto

/-- C8: adding a user under a name not yet present succeeds; a second
`add_user` with the same name (any password, any flag) returns false —
the unique-name violation is caught, never raised — leaves the store
unchanged, and the one surviving row for the name is the row the first
call inserted. -/
theorem C8_duplicate_add (H : String → String)
    (salt1 salt2 name p1 p2 : String) (e1 e2 : Bool) (db : DB)
    (hfresh : db.users.any (fun u => u.name == name) = false) :
    (add_user H true salt1 name p1 e1 db).1 = .ok true ∧
    add_user H true salt2 name p2 e2 (add_user H true salt1 name p1 e1 db).2 =
      (.ok false, (add_user H true salt1 name p1 e1 db).2) ∧
    (add_user H true salt1 name p1 e1 db).2.users.filter
        (fun u => u.name == name) =
      [⟨db.nextUserId, name, salt1, H (p1 ++ salt1), e1⟩] := by
  have hnone : ∀ u ∈ db.users, ¬ (u.name == name) = true :=
    List.any_eq_false.mp hfresh
  have h1 : add_user H true salt1 name p1 e1 db =
      (.ok true,
        { db with
            users := db.users ++
              [⟨db.nextUserId, name, salt1, H (p1 ++ salt1), e1⟩],
            nextUserId := db.nextUserId + 1 }) := by
    simp [add_user, hashPassword, hfresh]
  rw [h1]
  refine ⟨rfl, ?_, ?_⟩
  · simp [add_user, List.any_append, hfresh]
  · simp [List.filter_append, List.filter_eq_nil_iff.mpr hnone]

/-- C8, witness: the double-add scenario run from the empty database. -/
theorem C8_witness :
    (add_user idH true "s" "alice" "secret" true DB.empty).1 = .ok true ∧
    add_user idH true "t" "alice" "other" false
        (add_user idH true "s" "alice" "secret" true DB.empty).2 =
      (.ok false, (add_user idH true "s" "alice" "secret" true DB.empty).2) ∧
    (add_user idH true "s" "alice" "secret" true DB.empty).2.users.filter
        (fun u => u.name == "alice") =
      [⟨1, "alice", "s", "secrets", true⟩] :=
  C8_duplicate_add idH "s" "t" "alice" "secret" "other" true false
    DB.empty rfl

/-- `check_password` on an initialised store reduces to comparing the
found row's stored digest against the recomputed one. -/
theorem check_password_of_find? (H : String → String)
    (name password : String) (db : DB) (u : UserRow)
    (hfind : db.users.find? (fun v => v.name == name) = some u) :
    check_password H true name password db =
      .ok (u.hashed_password == H (password ++ u.salt)) := by
  simp [check_password, hfind, isValidPassword]

/-- C7: after `add_user` stores the fresh salt and the digest
`H (password ++ salt)`, `check_password` succeeds with the same password
and fails with any password whose salted digest differs; and after
`change_password` re-hashes with a fresh salt, the same round-trip holds
for the new password. -/
theorem C7_hash_roundtrip (H : String → String)
    (salt salt2 name p q p2 q2 : String) (enabled : Bool) (db : DB)
    (hfresh : db.users.any (fun u => u.name == name) = false)
    (hcoll : H (q ++ salt) ≠ H (p ++ salt))
    (hcoll2 : H (q2 ++ salt2) ≠ H (p2 ++ salt2)) :
    (add_user H true salt name p enabled db).1 = .ok true ∧
    check_password H true name p
      (add_user H true salt name p enabled db).2 = .ok true ∧
    check_password H true name q
      (add_user H true salt name p enabled db).2 = .ok false ∧
    (change_password H true salt2 name p2
      (add_user H true salt name p enabled db).2).1 = .ok true ∧
    check_password H true name p2
      (change_password H true salt2 name p2
        (add_user H true salt name p enabled db).2).2 = .ok true ∧
    check_password H true name q2
      (change_password H true salt2 name p2
        (add_user H true salt name p enabled db).2).2 = .ok false := by
  have hnone : ∀ u ∈ db.users, ¬ (u.name == name) = true :=
    List.any_eq_false.mp hfresh
  have hfind0 : db.users.find? (fun v => v.name == name) = none :=
    List.find?_eq_none.mpr hnone
  have h1 : add_user H true salt name p enabled db =
      (.ok true,
        { db with
            users := db.users ++
              [(⟨db.nextUserId, name, salt, H (p ++ salt), enabled⟩ :
                UserRow)],
            nextUserId := db.nextUserId + 1 }) := by
    simp [add_user, hashPassword, hfresh]
  have hfind1 : (add_user H true salt name p enabled db).2.users.find?
      (fun v => v.name == name) =
      some (⟨db.nextUserId, name, salt, H (p ++ salt), enabled⟩ :
        UserRow) := by
    rw [h1]
    dsimp only
    rw [List.find?_append, hfind0]
    simp
  have hchgu : (change_password H true salt2 name p2
      (add_user H true salt name p enabled db).2).2.users =
      (add_user H true salt name p enabled db).2.users.map
        (fun u => if u.name == name then
          { u with salt := salt2, hashed_password := H (p2 ++ salt2) }
          else u) := by
    rw [h1]
    rfl
  have hpres : ∀ u : UserRow,
      ((if u.name == name then
          { u with salt := salt2, hashed_password := H (p2 ++ salt2) }
        else u).name == name) = (u.name == name) := by
    intro u
    by_cases h : u.name == name <;> simp [h]
  have hfind2 : (change_password H true salt2 name p2
      (add_user H true salt name p enabled db).2).2.users.find?
      (fun v => v.name == name) =
      some (⟨db.nextUserId, name, salt2, H (p2 ++ salt2), enabled⟩ :
        UserRow) := by
    rw [hchgu, find?_map_of_pred_eq _ _ hpres, hfind1]
    simp
  refine ⟨?_, ?_, ?_, ?_, ?_, ?_⟩
  · rw [h1]
  · rw [check_password_of_find? H name p _ _ hfind1]
    simp
  · rw [check_password_of_find? H name q _ _ hfind1]
    dsimp only
    exact congrArg Except.ok (beq_eq_false_iff_ne.mpr (Ne.symm hcoll))
  · rw [h1]
    simp [change_password, hashPassword, List.filter_append,
      List.filter_eq_nil_iff.mpr hnone]
  · rw [check_password_of_find? H name p2 _ _ hfind2]
    simp
  · rw [check_password_of_find? H name q2 _ _ hfind2]
    dsimp only
    exact congrArg Except.ok (beq_eq_false_iff_ne.mpr (Ne.symm hcoll2))

/-- C7, witness: the round-trip run from the empty database with
concrete salts and passwords. -/
theorem C7_witness :
    (add_user idH true "s" "alice" "secret" true DB.empty).1 = .ok true ∧
    check_password idH true "alice" "secret"
      (add_user idH true "s" "alice" "secret" true DB.empty).2 = .ok true ∧
    check_password idH true "alice" "wrong"
      (add_user idH true "s" "alice" "secret" true DB.empty).2 = .ok false ∧
    (change_password idH true "t" "alice" "next"
      (add_user idH true "s" "alice" "secret" true DB.empty).2).1 = .ok true ∧
    check_password idH true "alice" "next"
      (change_password idH true "t" "alice" "next"
        (add_user idH true "s" "alice" "secret" true DB.empty).2).2 =
      .ok true ∧
    check_password idH true "alice" "secret"
      (change_password idH true "t" "alice" "next"
        (add_user idH true "s" "alice" "secret" true DB.empty).2).2 =
      .ok false :=
  C7_hash_roundtrip idH "s" "t" "alice" "secret" "wrong" "next" "secret"
    true DB.empty rfl (by decide) (by decide)

/-- C10: `delete_user` is a delete against the users table only — the
roles and members tables (and their autoincrement counters) are exactly
preserved, whether or not a user row is removed, so membership rows
referencing the deleted user survive. -/
theorem C10_delete_user_frame (init : Bool) (name : String) (db : DB) :
    (delete_user init name db).2.members = db.members ∧
    (delete_user init name db).2.roles = db.roles ∧
    (delete_user init name db).2.nextMemberId = db.nextMemberId ∧
    (delete_user init name db).2.nextRoleId = db.nextRoleId := by
  cases init <;> simp [delete_user]

end SqlAuth
